import Mathlib

/-!
Shallow embedding of the meeting-notes backend (`src/server.js`) for the
`POST /api/extract-action-items` pipeline: input validation, the single
completion call, JSON response normalization (id injection via object
spread), and error classification.

JS values arriving from `JSON.parse` are modelled by the `Json` inductive;
JS objects are association lists in key order.  Machine details that the
claims do not touch (UTF-16 lengths, exotic Unicode whitespace beyond the
common classes, floating-point numbers) are modelled by codepoint lists,
a fixed whitespace class, and `Int`.
-/

set_option autoImplicit false

namespace MeetingNotes

/-- A JSON value as produced by `JSON.parse`.  Objects keep their fields in
insertion order, as JS objects do. -/
inductive Json where
  | null
  | bool (b : Bool)
  | num (n : Int)
  | str (s : String)
  | arr (elems : List Json)
  | obj (fields : List (String × Json))

/-- First-occurrence association-list lookup, the JS property read on an
object whose keys are distinct (as `JSON.parse` guarantees). -/
def lookupKey : List (String × Json) → String → Option Json
  | [], _ => none
  | p :: ps, k => if p.1 = k then some p.2 else lookupKey ps k

/-- JS property read `v.k` on a value already known not to be `null`:
objects give their field (or `undefined`, here `none`); primitives and
arrays give `undefined` for the keys the pipeline reads. -/
def lookupIn (v : Json) (k : String) : Option Json :=
  match v with
  | Json.obj fs => lookupKey fs k
  | _ => none

/-- Reads field `k` when it is a string, as `Option String` (kept
decidable for concrete evaluation). -/
def strField (v : Json) (k : String) : Option String :=
  match v with
  | Json.obj fs =>
    match lookupKey fs k with
    | some (Json.str s) => some s
    | _ => none
  | _ => none

/-- JS property assignment semantics on an object's field list: replace the
value at the first occurrence of the key, else append the pair. -/
def objInsert : List (String × Json) → String → Json → List (String × Json)
  | [], k, v => [(k, v)]
  | p :: ps, k, v => if p.1 = k then (k, v) :: ps else p :: objInsert ps k v

/-- The own enumerable key/value pairs a JS value contributes under object
spread `{...v}`: an object's fields; index keys for strings and arrays;
nothing for null, booleans and numbers. -/
def spreadKeys : Json → List (String × Json)
  | Json.obj fs => fs
  | Json.str s => (s.data.enum).map (fun p => (toString p.1, Json.str (String.mk [p.2])))
  | Json.arr xs => (xs.enum).map (fun p => (toString p.1, p.2))
  | _ => []

/-- `{base..., ...item}`: spread `item`'s own enumerable pairs over `base`,
assigning them left to right (`server.js:118-121` builds
`{ id: ..., ...item }` this way). -/
def spreadOver (base : List (String × Json)) (item : Json) : List (String × Json) :=
  (spreadKeys item).foldl (fun acc p => objInsert acc p.1 p.2) base

/-- The last binding a key receives while a pair list is spread; `none`
when the key never occurs. -/
def lastVal : List (String × Json) → String → Option Json
  | [], _ => none
  | p :: ps, k =>
    match lastVal ps k with
    | some v => some v
    | none => if p.1 = k then some p.2 else none

/-- The id template string `item-${t}-${index}` of `server.js:119`. -/
def itemId (t : Nat) (i : Nat) : String :=
  "item-" ++ toString t ++ "-" ++ toString i

/-- One element of the normalizing map of `server.js:118-121`:
`{ id: item-<t>-<i>, ...item }`, where `t` is the `Date.now()` reading
taken inside this callback invocation. -/
def normalizeItem (t : Nat) (i : Nat) (item : Json) : Json :=
  Json.obj (spreadOver [("id", Json.str (itemId t i))] item)

/-- `Array.prototype.map` with the element index, specialised to the
normalizer's callback shape. -/
def mapIdx (f : Nat → Json → Json) : Nat → List Json → List Json
  | _, [] => []
  | i, item :: rest => f i item :: mapIdx f (i + 1) rest

/-- The whole `parsedResponse.actionItems.map((item, index) => ...)` of
`server.js:118-121`.  `clk i` is the value the `i`-th `Date.now()` call
returns during the map (the code evaluates `Date.now()` inside the
callback, once per item). -/
def injectIds (clk : Nat → Nat) (items : List Json) : List Json :=
  mapIdx (fun i item => normalizeItem (clk i) i item) 0 items

/-- JS whitespace class trimmed by `String.prototype.trim` (tab, line
terminators, space, NBSP, LS, PS, BOM). -/
def isJsWs (c : Char) : Bool :=
  c.toNat = 9 || c.toNat = 10 || c.toNat = 11 || c.toNat = 12 || c.toNat = 13 ||
  c.toNat = 32 || c.toNat = 160 || c.toNat = 8232 || c.toNat = 8233 || c.toNat = 65279

/-- `notes.trim().length` of `server.js:46`. -/
def jsTrimmedLen (s : String) : Nat :=
  ((s.data.dropWhile isJsWs).reverse.dropWhile isJsWs).length

/-- `notes.length` of `server.js:52`. -/
def jsLen (s : String) : Nat := s.data.length

/-- Which validation rule of `server.js:40-56` fired. -/
inductive ValidationError where
  | invalidType
  | tooShort
  | tooLong
deriving DecidableEq

/-- The validation block of `server.js:40-56`.  `notes` is the JS value of
`req.body.notes` (`none` = absent/undefined).  `!notes` makes the empty
string take the invalid-type branch. -/
def validateNotes (notes : Option Json) : Option ValidationError :=
  match notes with
  | some (Json.str s) =>
    if s = "" then some ValidationError.invalidType
    else if jsTrimmedLen s < 10 then some ValidationError.tooShort
    else if jsLen s > 50000 then some ValidationError.tooLong
    else none
  | _ => some ValidationError.invalidType

/-- `needle` occurs in `hay` starting at position 0. -/
def startsW : List Char → List Char → Bool
  | _, [] => true
  | [], _ :: _ => false
  | a :: as, b :: bs => a = b && startsW as bs

/-- Some position of `hay` starts `needle`. -/
def hasSub : List Char → List Char → Bool
  | [], needle => needle.isEmpty
  | a :: as, needle => startsW (a :: as) needle || hasSub as needle

/-- `String.prototype.includes` of `server.js:130,136`. -/
def strHasSub (s sub : String) : Bool := hasSub s.data sub.data

def invalidTypeMsg : String := "Invalid input. Please provide meeting notes as a string."
def tooShortMsg : String := "Meeting notes too short. Please provide at least 10 characters."
def tooLongMsg : String := "Meeting notes too long. Please limit to 50,000 characters."
def apiConfigMsg : String := "API configuration error. Please contact support."
def rateLimitMsg : String := "Too many requests. Please try again in a moment."
def genericFailMsg : String := "Failed to process meeting notes. Please try again."
def emptyRespMsg : String := "No response from AI"
def malformedMsg : String := "Invalid response format from AI"
def nullAccessMsg : String := "Cannot read properties of null reading actionItems"

/-- `{ error: msg }` response body. -/
def errBody (msg : String) : Json := Json.obj [("error", Json.str msg)]

/-- An HTTP status/body pair as the handler sends it. -/
structure HttpResponse where
  status : Nat
  body : Json

/-- The catch block of `server.js:126-145`: classify the thrown error by
its message text, in priority order. -/
def classifyError (msg : String) : HttpResponse :=
  if strHasSub msg "API key" then ⟨500, errBody apiConfigMsg⟩
  else if strHasSub msg "rate limit" then ⟨429, errBody rateLimitMsg⟩
  else ⟨500, errBody genericFailMsg⟩

/-- Outcome of the single `groq.chat.completions.create` call
(`server.js:59-99`): a rejected promise with an error message, or a
resolved completion whose `choices[0]?.message?.content` is the given
optional string. -/
inductive CallOutcome where
  | failure (msg : String)
  | success (content : Option String)

/-- `server.js:108-124`: the post-parse part of the handler on the parsed
completion value.  Reading `.actionItems` on `null` throws a `TypeError`
that the catch block classifies; an object whose `actionItems` is an
array gets ids injected; everything else is sent back as-is with 200. -/
def processParsed (clk : Nat → Nat) (v : Json) : HttpResponse :=
  match v with
  | Json.null => classifyError nullAccessMsg
  | Json.obj fields =>
    match lookupKey fields "actionItems" with
    | some (Json.arr items) =>
      ⟨200, Json.obj (objInsert fields "actionItems" (Json.arr (injectIds clk items)))⟩
    | _ => ⟨200, Json.obj fields⟩
  | other => ⟨200, other⟩

/-- The whole `POST /api/extract-action-items` handler
(`server.js:35-146`).  `notes` is `req.body.notes`; `call` the outcome of
the one completion call; `parse` is `JSON.parse` on completion text
(`none` = throws); `clk` the successive `Date.now()` readings.  The second
component counts how many completion calls were issued. -/
def extractHandler (notes : Option Json) (call : CallOutcome)
    (parse : String → Option Json) (clk : Nat → Nat) : HttpResponse × Nat :=
  match validateNotes notes with
  | some ValidationError.invalidType => (⟨400, errBody invalidTypeMsg⟩, 0)
  | some ValidationError.tooShort => (⟨400, errBody tooShortMsg⟩, 0)
  | some ValidationError.tooLong => (⟨400, errBody tooLongMsg⟩, 0)
  | none =>
    match call with
    | CallOutcome.failure msg => (classifyError msg, 1)
    | CallOutcome.success content =>
      match content with
      | none => (classifyError emptyRespMsg, 1)
      | some txt =>
        if txt = "" then (classifyError emptyRespMsg, 1)
        else
          match parse txt with
          | none => (classifyError malformedMsg, 1)
          | some v => (processParsed clk v, 1)

/-- Does the body's `actionItems` field hold an array? -/
def actionItemsIsArray (v : Json) : Bool :=
  match v with
  | Json.obj fs =>
    match lookupKey fs "actionItems" with
    | some (Json.arr _) => true
    | _ => false
  | _ => false

/-- `actionItems` is absent or holds a non-array value (over any parsed
value; non-objects have no fields). -/
def actionItemsAbsentOrNonArray (v : Json) : Bool :=
  match v with
  | Json.obj fs =>
    match lookupKey fs "actionItems" with
    | some (Json.arr _) => false
    | _ => true
  | _ => true

/-- The `id` field of an item when it is a string. -/
def idStringOf (v : Json) : Option String := strField v "id"

/-- The id string of the first element of the body's `actionItems` array. -/
def firstItemIdString (v : Json) : Option String :=
  match v with
  | Json.obj fs =>
    match lookupKey fs "actionItems" with
    | some (Json.arr (x :: _)) => idStringOf x
    | _ => none
  | _ => none

/-- No two entries of the list are equal. -/
def allDistinct : List (Option String) → Bool
  | [] => true
  | x :: xs => !(xs.contains x) && allDistinct xs

/-! ### Association-list and spread lemmas -/

theorem lookupKey_objInsert_self (fs : List (String × Json)) (k : String) (v : Json) :
    lookupKey (objInsert fs k v) k = some v := by
  induction fs with
  | nil => simp [objInsert, lookupKey]
  | cons p ps ih =>
    by_cases h : p.1 = k
    · simp [objInsert, h, lookupKey]
    · simp [objInsert, h, lookupKey, ih]

theorem lookupKey_objInsert_ne (fs : List (String × Json)) (k : String) (v : Json)
    (k' : String) (h : k' ≠ k) :
    lookupKey (objInsert fs k v) k' = lookupKey fs k' := by
  induction fs with
  | nil => simp [objInsert, lookupKey, Ne.symm h]
  | cons p ps ih =>
    by_cases hp : p.1 = k
    · subst hp
      simp [objInsert, lookupKey, Ne.symm h]
    · by_cases hp' : p.1 = k'
      · simp [objInsert, hp, lookupKey, hp', h]
      · simp [objInsert, hp, lookupKey, hp', ih]

theorem lookupKey_spreadFold (ps : List (String × Json)) (base : List (String × Json))
    (k : String) :
    lookupKey (ps.foldl (fun acc p => objInsert acc p.1 p.2) base) k
      = match lastVal ps k with
        | some w => some w
        | none => lookupKey base k := by
  induction ps generalizing base with
  | nil => simp [lastVal]
  | cons p ps ih =>
    simp only [List.foldl_cons, ih (objInsert base p.1 p.2), lastVal]
    cases hl : lastVal ps k with
    | some w => simp
    | none =>
      by_cases hp : p.1 = k
      · subst hp
        simp [lookupKey_objInsert_self]
      · simp [hp, lookupKey_objInsert_ne base p.1 p.2 k (Ne.symm hp)]

theorem lookupIn_normalizeItem_ne (t i : Nat) (v : Json) (k : String) (hk : k ≠ "id") :
    lookupIn (normalizeItem t i v) k = lastVal (spreadKeys v) k := by
  simp only [normalizeItem, spreadOver, lookupIn, lookupKey_spreadFold]
  cases lastVal (spreadKeys v) k with
  | some w => simp
  | none => simp [lookupKey, Ne.symm hk]

theorem lookupIn_normalizeItem_id (t i : Nat) (v : Json)
    (h : lastVal (spreadKeys v) "id" = none) :
    lookupIn (normalizeItem t i v) "id" = some (Json.str (itemId t i)) := by
  simp only [normalizeItem, spreadOver, lookupIn, lookupKey_spreadFold, h]
  simp [lookupKey]

theorem mapIdx_length (f : Nat → Json → Json) (n : Nat) (l : List Json) :
    (mapIdx f n l).length = l.length := by
  induction l generalizing n with
  | nil => simp [mapIdx]
  | cons a as ih => simp [mapIdx, ih]

theorem mapIdx_getElem (f : Nat → Json → Json) (n : Nat) (l : List Json) (i : Nat) :
    (mapIdx f n l)[i]? = l[i]?.map (fun v => f (n + i) v) := by
  induction l generalizing n i with
  | nil => simp [mapIdx]
  | cons a as ih =>
    cases i with
    | zero => simp [mapIdx]
    | succ j =>
      have h : n + 1 + j = n + (j + 1) := by omega
      simp only [mapIdx, List.getElem?_cons_succ, ih (n + 1) j, h]

theorem injectIds_getElem (clk : Nat → Nat) (items : List Json) (i : Nat) :
    (injectIds clk items)[i]? = items[i]?.map (fun v => normalizeItem (clk i) i v) := by
  simp [injectIds, mapIdx_getElem]

theorem validateNotes_invalidType (notes : Option Json)
    (hns : ∀ s, notes ≠ some (Json.str s)) :
    validateNotes notes = some ValidationError.invalidType := by
  cases notes with
  | none => rfl
  | some v =>
    cases v with
    | null => rfl
    | bool b => rfl
    | num n => rfl
    | str s => exact absurd rfl (hns s)
    | arr xs => rfl
    | obj fs => rfl

/-! ### Claims -/

/-- Claim C1, counterexample: a 200 response whose `actionItems` is not an
array.  A parsed completion `{"actionItems": "none", "summary": "s"}`
reaches the client with status 200 and a string-valued `actionItems`, so
`actionItems` is not always an array on 200 responses. -/
theorem claim_C1_counterexample :
    ((extractHandler (some (Json.str "0123456789")) (CallOutcome.success (some "T"))
        (fun _ => some (Json.obj [("actionItems", Json.str "none"), ("summary", Json.str "s")]))
        (fun _ => 0)).1.status = 200) ∧
    actionItemsIsArray ((extractHandler (some (Json.str "0123456789")) (CallOutcome.success (some "T"))
        (fun _ => some (Json.obj [("actionItems", Json.str "none"), ("summary", Json.str "s")]))
        (fun _ => 0)).1.body) = false := by
  decide

/-- Claim C1 as amended: when the parsed completion object carries an
array-valued `actionItems`, the handler responds 200 and the returned
`actionItems` is the (id-injected) array, the empty array when no items
were found; a non-array `actionItems` is passed through as-is. -/
theorem claim_C1 (clk : Nat → Nat) (fields : List (String × Json)) (items : List Json)
    (h : lookupKey fields "actionItems" = some (Json.arr items)) :
    (processParsed clk (Json.obj fields)).status = 200 ∧
    lookupIn (processParsed clk (Json.obj fields)).body "actionItems"
      = some (Json.arr (injectIds clk items)) ∧
    (items = [] →
      lookupIn (processParsed clk (Json.obj fields)).body "actionItems"
        = some (Json.arr [])) := by
  have hb : processParsed clk (Json.obj fields)
      = ⟨200, Json.obj (objInsert fields "actionItems" (Json.arr (injectIds clk items)))⟩ := by
    simp [processParsed, h]
  rw [hb]
  refine ⟨rfl, ?_, ?_⟩
  · simp [lookupIn, lookupKey_objInsert_self]
  · intro he
    subst he
    simp [lookupIn, lookupKey_objInsert_self, injectIds, mapIdx]

/-- Claim C1, witness: an empty `actionItems` array comes back as the
empty array on a 200 response. -/
theorem claim_C1_witness :
    lookupIn (processParsed (fun _ => 0)
        (Json.obj [("actionItems", Json.arr []), ("summary", Json.str "s")])).body "actionItems"
      = some (Json.arr []) :=
  (claim_C1 (fun _ => 0) [("actionItems", Json.arr []), ("summary", Json.str "s")] [] rfl).2.2 rfl

/-- Claim C2, behavior at the failing input: because `server.js:118-121`
builds `{ id: ..., ...item }` with the spread after the `id` field, an
item that already carries an `id` keeps the model-supplied value and the
injected id is overwritten; the injected `item-<t>-<index>` id only
survives for items the model emitted without an `id` field. -/
theorem claim_C2 :
    (injectIds (fun _ => 42)
        [Json.obj [("id", Json.str "model-id"), ("task", Json.str "A")]]).map idStringOf
      = [some "model-id"] ∧
    (injectIds (fun _ => 42) [Json.obj [("task", Json.str "A")]]).map idStringOf
      = [some (itemId 42 0)] := by
  decide

/-- Claim C3, counterexample: the completion text `null` parses as valid
JSON and its parsed value has no `actionItems` field, yet the pipeline
returns the generic 500 failure (reading `.actionItems` on `null` throws),
not the parsed value with 200. -/
theorem claim_C3_counterexample :
    ((extractHandler (some (Json.str "0123456789")) (CallOutcome.success (some "null"))
        (fun _ => some Json.null) (fun _ => 0)).1.status = 500) ∧
    strField ((extractHandler (some (Json.str "0123456789")) (CallOutcome.success (some "null"))
        (fun _ => some Json.null) (fun _ => 0)).1.body) "error" = some genericFailMsg := by
  decide

/-- Claim C3 as amended: every parsed completion value other than `null`
whose `actionItems` field is absent or not an array is returned unchanged
with status 200 — no array is synthesized and no error is raised.  (`null`
itself raises on property access and yields the generic 500.) -/
theorem claim_C3 (clk : Nat → Nat) (v : Json) (hnull : v ≠ Json.null)
    (h : actionItemsAbsentOrNonArray v = true) :
    processParsed clk v = ⟨200, v⟩ := by
  cases v with
  | null => exact absurd rfl hnull
  | bool b => rfl
  | num n => rfl
  | str s => rfl
  | arr xs => rfl
  | obj fields =>
    cases hl : lookupKey fields "actionItems" with
    | none => simp [processParsed, hl]
    | some w => cases w <;> simp_all [processParsed, actionItemsAbsentOrNonArray, hl]

/-- Claim C3, witness: a parsed bare number is passed through unchanged
with status 200. -/
theorem claim_C3_witness :
    processParsed (fun _ => 0) (Json.num 5) = ⟨200, Json.num 5⟩ :=
  claim_C3 (fun _ => 0) (Json.num 5) (fun hc => Json.noConfusion hc) rfl

/-- Claim C4, counterexample: the empty string is a string of trimmed
length 0 < 10, but the `!notes` falsiness test of `server.js:40` fires
first, so the handler returns the invalid-type message, not the too-short
one. -/
theorem claim_C4_counterexample :
    ((extractHandler (some (Json.str "")) (CallOutcome.success none)
        (fun _ => none) (fun _ => 0)).1.status = 400) ∧
    strField ((extractHandler (some (Json.str "")) (CallOutcome.success none)
        (fun _ => none) (fun _ => 0)).1.body) "error" = some invalidTypeMsg ∧
    invalidTypeMsg ≠ tooShortMsg := by
  decide

/-- Claim C4 as amended: the rules are checked in order with the first
failure winning — every non-string `notes` gets 400 invalid-type; the
empty string also gets 400 invalid-type (falsiness check); every
*non-empty* string with trimmed length < 10 gets 400 too-short; every
string past that with length > 50,000 gets 400 too-long; trimmed length
exactly 10 and raw length exactly 50,000 pass validation.  No completion
call happens on any 400 (call count 0). -/
theorem claim_C4 (notes : Option Json) (call : CallOutcome)
    (parse : String → Option Json) (clk : Nat → Nat) :
    ((∀ s, notes ≠ some (Json.str s)) →
      extractHandler notes call parse clk = (⟨400, errBody invalidTypeMsg⟩, 0)) ∧
    (notes = some (Json.str "") →
      extractHandler notes call parse clk = (⟨400, errBody invalidTypeMsg⟩, 0)) ∧
    (∀ s, notes = some (Json.str s) → s ≠ "" → jsTrimmedLen s < 10 →
      extractHandler notes call parse clk = (⟨400, errBody tooShortMsg⟩, 0)) ∧
    (∀ s, notes = some (Json.str s) → 10 ≤ jsTrimmedLen s → 50000 < jsLen s →
      extractHandler notes call parse clk = (⟨400, errBody tooLongMsg⟩, 0)) ∧
    (∀ s, notes = some (Json.str s) → 10 ≤ jsTrimmedLen s → jsLen s ≤ 50000 →
      validateNotes notes = none) := by
  refine ⟨?_, ?_, ?_, ?_, ?_⟩
  · intro hns
    simp [extractHandler, validateNotes_invalidType notes hns]
  · intro hs
    subst hs
    simp [extractHandler, validateNotes]
  · intro s hs hne hlen
    subst hs
    have hv : validateNotes (some (Json.str s)) = some ValidationError.tooShort := by
      simp [validateNotes, hne, hlen]
    simp [extractHandler, hv]
  · intro s hs htrim hlen
    subst hs
    have hne : s ≠ "" := by
      intro hc
      subst hc
      revert htrim
      decide
    have hv : validateNotes (some (Json.str s)) = some ValidationError.tooLong := by
      simp [validateNotes, hne, Nat.not_lt.mpr htrim, hlen]
    simp [extractHandler, hv]
  · intro s hs htrim hlen
    subst hs
    have hne : s ≠ "" := by
      intro hc
      subst hc
      revert htrim
      decide
    simp [validateNotes, hne, Nat.not_lt.mpr htrim, Nat.not_lt.mpr hlen]

/-- Claim C4, witness: a number gets invalid-type, the empty string gets
invalid-type, a short string gets too-short (all with zero completion
calls), and a 10-character string passes validation. -/
theorem claim_C4_witness :
    extractHandler (some (Json.num 3)) (CallOutcome.success none) (fun _ => none) (fun _ => 0)
      = (⟨400, errBody invalidTypeMsg⟩, 0) ∧
    extractHandler (some (Json.str "")) (CallOutcome.success none) (fun _ => none) (fun _ => 0)
      = (⟨400, errBody invalidTypeMsg⟩, 0) ∧
    extractHandler (some (Json.str "hi")) (CallOutcome.success none) (fun _ => none) (fun _ => 0)
      = (⟨400, errBody tooShortMsg⟩, 0) ∧
    validateNotes (some (Json.str "0123456789")) = none :=
  ⟨(claim_C4 (some (Json.num 3)) (CallOutcome.success none) (fun _ => none) (fun _ => 0)).1
      (fun s hc => Json.noConfusion (Option.some.inj hc)),
   (claim_C4 (some (Json.str "")) (CallOutcome.success none) (fun _ => none) (fun _ => 0)).2.1 rfl,
   (claim_C4 (some (Json.str "hi")) (CallOutcome.success none) (fun _ => none) (fun _ => 0)).2.2.1
      "hi" rfl (by decide) (by decide),
   (claim_C4 (some (Json.str "0123456789")) (CallOutcome.success none) (fun _ => none) (fun _ => 0)).2.2.2.2
      "0123456789" rfl (by decide) (by decide)⟩

/-- Claim C5: error classification checks the failure message in priority
order — a message containing "API key" gives 500 with the generic
API-configuration body; otherwise one containing "rate limit" gives 429
with the retry-later body; every other failure, including the empty
completion response and malformed JSON, gives the generic 500
failed-to-process body. -/
theorem claim_C5 (msg : String) (notes : Option Json)
    (parse : String → Option Json) (clk : Nat → Nat) (txt : String) :
    (strHasSub msg "API key" = true →
      classifyError msg = ⟨500, errBody apiConfigMsg⟩) ∧
    (strHasSub msg "API key" = false → strHasSub msg "rate limit" = true →
      classifyError msg = ⟨429, errBody rateLimitMsg⟩) ∧
    (strHasSub msg "API key" = false → strHasSub msg "rate limit" = false →
      classifyError msg = ⟨500, errBody genericFailMsg⟩) ∧
    (validateNotes notes = none →
      (extractHandler notes (CallOutcome.failure msg) parse clk).1 = classifyError msg) ∧
    (validateNotes notes = none →
      (extractHandler notes (CallOutcome.success none) parse clk).1
        = ⟨500, errBody genericFailMsg⟩) ∧
    (validateNotes notes = none → txt ≠ "" → parse txt = none →
      (extractHandler notes (CallOutcome.success (some txt)) parse clk).1
        = ⟨500, errBody genericFailMsg⟩) := by
  refine ⟨?_, ?_, ?_, ?_, ?_, ?_⟩
  · intro h
    simp [classifyError, h]
  · intro h1 h2
    simp [classifyError, h1, h2]
  · intro h1 h2
    simp [classifyError, h1, h2]
  · intro hv
    simp [extractHandler, hv]
  · intro hv
    have h1 : extractHandler notes (CallOutcome.success none) parse clk
        = (classifyError emptyRespMsg, 1) := by
      simp [extractHandler, hv]
    rw [h1]
    rfl
  · intro hv htxt hp
    have h1 : extractHandler notes (CallOutcome.success (some txt)) parse clk
        = (classifyError malformedMsg, 1) := by
      simp [extractHandler, hv, htxt, hp]
    rw [h1]
    rfl

/-- Claim C5, witness: concrete messages land in each category, and the
empty-response path yields the generic 500 body. -/
theorem claim_C5_witness :
    classifyError "Invalid API key provided" = ⟨500, errBody apiConfigMsg⟩ ∧
    classifyError "You hit a rate limit" = ⟨429, errBody rateLimitMsg⟩ ∧
    (extractHandler (some (Json.str "0123456789")) (CallOutcome.success none)
        (fun _ => none) (fun _ => 0)).1 = ⟨500, errBody genericFailMsg⟩ :=
  ⟨(claim_C5 "Invalid API key provided" none (fun _ => none) (fun _ => 0) "").1 (by decide),
   (claim_C5 "You hit a rate limit" none (fun _ => none) (fun _ => 0) "").2.1
      (by decide) (by decide),
   (claim_C5 "x" (some (Json.str "0123456789")) (fun _ => none) (fun _ => 0) "").2.2.2.2.1
      (by decide)⟩

/-- Claim C6, behavior at the failing input: when two items of one
response both carry the model-supplied id `"x"`, the spread order of
`server.js:118-121` keeps both, so the normalized result holds two items
with the same id — id uniqueness within one result does not hold. -/
theorem claim_C6 :
    (injectIds (fun _ => 5)
        [Json.obj [("id", Json.str "x")], Json.obj [("id", Json.str "x")]]).map idStringOf
      = [some "x", some "x"] ∧
    allDistinct ((injectIds (fun _ => 5)
        [Json.obj [("id", Json.str "x")], Json.obj [("id", Json.str "x")]]).map idStringOf)
      = false := by
  decide

/-- Claim C7, counterexample: the timestamp is *not* captured once per
result.  Two clock histories that agree on their first reading produce
different normalized ids, and within a single run with an advancing clock
the second item's id embeds the second reading (`item-1-1`), showing
`Date.now()` is evaluated per item inside the map callback. -/
theorem claim_C7_counterexample :
    ((fun _ : Nat => 0) 0 = (fun i : Nat => i) 0) ∧
    (injectIds (fun _ : Nat => 0) [Json.obj [], Json.obj []]).map idStringOf
      ≠ (injectIds (fun i : Nat => i) [Json.obj [], Json.obj []]).map idStringOf ∧
    (injectIds (fun i : Nat => i) [Json.obj [], Json.obj []]).map idStringOf
      = [some (itemId 0 0), some (itemId 1 1)] := by
  decide

/-- Claim C7 as amended: `Date.now()` is read per item, but when every
reading during a run returns the same value `t` the ids are the stable,
reproducible strings `item-<t>-<index>` (for items the model emitted
without an own `id`), and two runs over the same items with different
constant readings differ at most in the `id` fields — length, order and
every other field are identical. -/
theorem claim_C7 (t₁ t₂ : Nat) (items : List Json) (i : Nat) (k : String) (v : Json) :
    ((injectIds (fun _ => t₁) items).length = items.length) ∧
    (k ≠ "id" →
      ((injectIds (fun _ => t₁) items)[i]?).map (fun x => lookupIn x k)
        = ((injectIds (fun _ => t₂) items)[i]?).map (fun x => lookupIn x k)) ∧
    (items[i]? = some v → lastVal (spreadKeys v) "id" = none →
      ((injectIds (fun _ => t₁) items)[i]?).map (fun x => lookupIn x "id")
        = some (some (Json.str (itemId t₁ i)))) := by
  refine ⟨?_, ?_, ?_⟩
  · simp [injectIds, mapIdx_length]
  · intro hk
    rw [injectIds_getElem, injectIds_getElem]
    cases h : items[i]? with
    | none => rfl
    | some x =>
      simp [lookupIn_normalizeItem_ne _ _ _ _ hk]
  · intro hv hid
    rw [injectIds_getElem, hv]
    simp [lookupIn_normalizeItem_id _ _ _ hid]

/-- Claim C7, witness: for a one-item array, runs at timestamps 1 and 2
agree on the `task` field, and the timestamp-1 run injects exactly
`item-1-0`. -/
theorem claim_C7_witness :
    ((injectIds (fun _ => 1) [Json.obj [("task", Json.str "A")]])[0]?).map
        (fun x => lookupIn x "task")
      = ((injectIds (fun _ => 2) [Json.obj [("task", Json.str "A")]])[0]?).map
        (fun x => lookupIn x "task") ∧
    ((injectIds (fun _ => 1) [Json.obj [("task", Json.str "A")]])[0]?).map
        (fun x => lookupIn x "id")
      = some (some (Json.str (itemId 1 0))) :=
  ⟨(claim_C7 1 2 [Json.obj [("task", Json.str "A")]] 0 "task"
      (Json.obj [("task", Json.str "A")])).2.1 (by decide),
   (claim_C7 1 2 [Json.obj [("task", Json.str "A")]] 0 "id"
      (Json.obj [("task", Json.str "A")])).2.2 rfl rfl⟩

/-- Claim C8: normalization changes no field other than `id` — every
field the original item carries (whatever its value, e.g. an out-of-range
`priority`) keeps its value in the normalized item, and every top-level
field of the parsed response other than `actionItems` is returned
unchanged. -/
theorem claim_C8 (t i : Nat) (v : Json) (k : String) (w : Json) (clk : Nat → Nat)
    (fields : List (String × Json)) (k₂ : String) :
    (lastVal (spreadKeys v) k = some w → lookupIn (normalizeItem t i v) k = some w) ∧
    (k₂ ≠ "actionItems" →
      lookupIn (processParsed clk (Json.obj fields)).body k₂ = lookupKey fields k₂) := by
  refine ⟨?_, ?_⟩
  · intro h
    have hf := lookupKey_spreadFold (spreadKeys v) [("id", Json.str (itemId t i))] k
    simp only [normalizeItem, spreadOver, lookupIn]
    rw [hf, h]
  · intro hk
    cases hl : lookupKey fields "actionItems" with
    | none => simp [processParsed, hl, lookupIn]
    | some w₂ =>
      cases w₂ with
      | null => simp [processParsed, hl, lookupIn]
      | bool b => simp [processParsed, hl, lookupIn]
      | num n => simp [processParsed, hl, lookupIn]
      | str s => simp [processParsed, hl, lookupIn]
      | arr items =>
        simp [processParsed, hl, lookupIn,
          lookupKey_objInsert_ne fields "actionItems" (Json.arr (injectIds clk items)) k₂ hk]
      | obj fs => simp [processParsed, hl, lookupIn]

/-- Claim C8, witness: an out-of-range `priority` survives normalization
unchanged, and a top-level `summary` field survives id injection. -/
theorem claim_C8_witness :
    lookupIn (normalizeItem 3 0 (Json.obj [("priority", Json.str "URGENT")])) "priority"
      = some (Json.str "URGENT") ∧
    lookupIn (processParsed (fun _ => 0)
        (Json.obj [("actionItems", Json.arr []), ("summary", Json.str "S")])).body "summary"
      = lookupKey [("actionItems", Json.arr []), ("summary", Json.str "S")] "summary" :=
  ⟨(claim_C8 3 0 (Json.obj [("priority", Json.str "URGENT")]) "priority" (Json.str "URGENT")
      (fun _ => 0) [("actionItems", Json.arr []), ("summary", Json.str "S")] "summary").1 rfl,
   (claim_C8 3 0 (Json.obj [("priority", Json.str "URGENT")]) "priority" (Json.str "URGENT")
      (fun _ => 0) [("actionItems", Json.arr []), ("summary", Json.str "S")] "summary").2
      (by decide)⟩

/-- Claim C9: per incoming request at most one completion call is issued,
and a request that fails validation issues none — its 400 response is
produced with the call count still at zero. -/
theorem claim_C9 (notes : Option Json) (call : CallOutcome)
    (parse : String → Option Json) (clk : Nat → Nat) :
    ((extractHandler notes call parse clk).2 ≤ 1) ∧
    (validateNotes notes ≠ none →
      (extractHandler notes call parse clk).2 = 0 ∧
      (extractHandler notes call parse clk).1.status = 400) := by
  cases hv : validateNotes notes with
  | some e =>
    cases e <;> simp [extractHandler, hv]
  | none =>
    refine ⟨?_, fun hc => absurd rfl hc⟩
    cases call with
    | failure msg => simp [extractHandler, hv]
    | success content =>
      cases content with
      | none => simp [extractHandler, hv]
      | some txt =>
        by_cases ht : txt = ""
        · simp [extractHandler, hv, ht]
        · cases hp : parse txt with
          | none => simp [extractHandler, hv, ht, hp]
          | some v => simp [extractHandler, hv, ht, hp]

/-- Claim C9, witness: a request with non-string notes gets its 400 with
zero completion calls issued. -/
theorem claim_C9_witness :
    (extractHandler (some (Json.num 3)) (CallOutcome.success none)
        (fun _ => none) (fun _ => 0)).2 = 0 ∧
    (extractHandler (some (Json.num 3)) (CallOutcome.success none)
        (fun _ => none) (fun _ => 0)).1.status = 400 :=
  (claim_C9 (some (Json.num 3)) (CallOutcome.success none) (fun _ => none) (fun _ => 0)).2
    (by decide)

/-- Claim C10, counterexample: for the parsed completion
`{"actionItems":[{}]}` the pipeline answers 200, but the body is not the
parsed value — the normalizer injected `item-0-0` into the item, so "the
parsed value as the body" fails for objects with a non-empty
`actionItems` array. -/
theorem claim_C10_counterexample :
    ((processParsed (fun _ => 0) (Json.obj [("actionItems", Json.arr [Json.obj []])])).status
      = 200) ∧
    firstItemIdString
        (processParsed (fun _ => 0) (Json.obj [("actionItems", Json.arr [Json.obj []])])).body
      = some "item-0-0" ∧
    firstItemIdString (Json.obj [("actionItems", Json.arr [Json.obj []])]) = none ∧
    (processParsed (fun _ => 0) (Json.obj [("actionItems", Json.arr [Json.obj []])])).body
      ≠ Json.obj [("actionItems", Json.arr [Json.obj []])] := by
  refine ⟨by decide, by decide, by decide, fun hc => ?_⟩
  exact absurd (congrArg firstItemIdString hc) (by decide)

/-- Claim C10 as amended: the parsed JSON literal `null` yields the
generic 500 failed-to-process error; every other parsed value yields
status 200, and bare numbers, booleans, strings and arrays come back
exactly as parsed (objects come back with ids injected into an
array-valued `actionItems`, unchanged otherwise). -/
theorem claim_C10 (clk : Nat → Nat) (v : Json) (n : Int) (b : Bool) (s : String)
    (xs : List Json) :
    (processParsed clk Json.null = ⟨500, errBody genericFailMsg⟩) ∧
    (v ≠ Json.null → (processParsed clk v).status = 200) ∧
    (processParsed clk (Json.num n) = ⟨200, Json.num n⟩) ∧
    (processParsed clk (Json.bool b) = ⟨200, Json.bool b⟩) ∧
    (processParsed clk (Json.str s) = ⟨200, Json.str s⟩) ∧
    (processParsed clk (Json.arr xs) = ⟨200, Json.arr xs⟩) := by
  refine ⟨by rfl, ?_, rfl, rfl, rfl, rfl⟩
  intro hnull
  cases v with
  | null => exact absurd rfl hnull
  | bool b₂ => rfl
  | num n₂ => rfl
  | str s₂ => rfl
  | arr xs₂ => rfl
  | obj fields =>
    cases hl : lookupKey fields "actionItems" with
    | none => simp [processParsed, hl]
    | some w => cases w <;> simp [processParsed, hl]

/-- Claim C10, witness: a parsed bare number yields a 200 response. -/
theorem claim_C10_witness :
    (processParsed (fun _ => 0) (Json.num 7)).status = 200 :=
  (claim_C10 (fun _ => 0) (Json.num 7) 0 true "" []).2.1 (fun hc => Json.noConfusion hc)

end MeetingNotes
